import Mathlib

/-!
Shallow embedding of `.github/scripts/code_review.py` (repository `penwyp/catmit`).

The script is a CI orchestrator: it reads environment-supplied configuration,
reads two local report files, optionally calls a generative-language API, and
performs write operations against the GitHub REST API (issue creation on test
failure, draft-PR creation on code-quality findings).

Modelling decisions:
* Environment values read by `os.getenv` are `Option String`; the four quality
  flags are compared to the literal `"true"` at startup, so the configuration
  record stores them as `Bool` (mirroring `os.getenv('HAS_…') == 'true'`).
  The commit SHA is taken as a `String` (the claims under study condition on
  the SHA being a string; a missing SHA would make `self.sha[:7]` raise).
* The filesystem is a map from filename to a `FileOutcome` (found / missing /
  read error), mirroring the `try/except` in `read_file`.
* The generative API is an oracle `GeminiOutcome` describing what the single
  HTTP call would yield (transport error, non-success status, or a response
  with or without a usable candidate text).
* The GitHub API is an oracle `Nat → HttpResponse` giving the server response
  to the n-th request issued in the run (indexed by the number of requests
  already made).  `GitHubAPI.request` records the request in a trace
  (`GHState.calls`) and returns the parsed body iff the response is `ok`,
  exactly like the Python `request` method.  Printing is not modelled.
* `base64.b64encode(...encode()).decode()` is modelled by a byte-level base64
  encoder over the UTF-8 bytes of the string, rendered back as a string.
-/

namespace CodeReview

/-- Configuration gathered once from the process environment in
`CodeReviewBot.__init__`.  Flags mirror `os.getenv('HAS_…') == 'true'`. -/
structure Config where
  github_token : Option String
  gemini_api_key : Option String
  repo : Option String
  sha : String
  test_exit_code : Option String
  has_complexity : Bool
  has_const_issues : Bool
  has_large_files : Bool
  has_static_issues : Bool

/-- Outcome of attempting to open and read a local file, as distinguished by
the `try/except` clauses of `CodeReviewBot.read_file`. -/
inductive FileOutcome where
  | found (content : String)
  | missing
  | readError (msg : String)

/-- `CodeReviewBot.read_file`: returns the content on success and the empty
string on `FileNotFoundError` or any other exception.  Total by construction,
so it never propagates an exception to its caller. -/
def read_file : FileOutcome → String
  | .found c => c
  | .missing => ""
  | .readError _ => ""

/-- Outcome of the single HTTP call to the generative-language endpoint in
`call_gemini_api`: transport exception, non-success status, or a 200 response
whose candidate text may be present or absent/malformed. -/
inductive GeminiOutcome where
  | exn (msg : String)
  | httpError (status : Nat)
  | response (candidate : Option String)

/-- `CodeReviewBot.call_gemini_api`: returns `none` when no API key is
configured, on a transport exception, on a non-success status, or when the
response carries no usable candidate; otherwise the candidate text.  The
prompt is sent to the network and does not otherwise influence the result. -/
def call_gemini_api (key : Option String) (gem : GeminiOutcome)
    (_prompt : String) : Option String :=
  match key with
  | none => none
  | some _ =>
    match gem with
    | .exn _ => none
    | .httpError _ => none
    | .response candidate => candidate

/-- Python truthiness choice `s or default` for strings: the default when `s`
is empty, else `s` itself (used in the prompt f-string). -/
def pyOr (s default : String) : String :=
  if s = "" then default else s

/-- Decides whether `needle` occurs as a contiguous substring of the character
list, mirroring Python's `needle in haystack` on strings. -/
def listContainsSub (needle : List Char) : List Char → Bool
  | [] => needle.isEmpty
  | a :: rest => needle.isPrefixOf (a :: rest) || listContainsSub needle rest

/-- Python's `needle in haystack` substring test on strings. -/
def strContainsSub (haystack needle : String) : Bool :=
  listContainsSub needle.data haystack.data

/-- Python's `str.upper()` restricted to what the script applies it to. -/
def strUpper (s : String) : String :=
  String.mk (s.data.map Char.toUpper)

/-- The prompt f-string assembled in `generate_ai_analysis` (lines 98-116). -/
def buildPrompt (test_results analysis_data : String) : String :=
  "You are an experienced Go developer and code reviewer. Please analyze the following code quality report and provide actionable recommendations.\n\nProject Context: This is a Go project called \"catmit\" (AI-powered commit message generator).\n\n## Test Results:\n"
    ++ pyOr test_results ("No test failures detected.")
    ++ "\n\n## Static Analysis Report:\n"
    ++ pyOr analysis_data ("No static analysis issues detected.")
    ++ "\n\nPlease provide:\n1. **Priority Assessment**: Sort issues by urgency (Critical/High/Medium/Low)\n2. **Root Cause Analysis**: What could be causing these issues?\n3. **Specific Actions**: Concrete steps to fix each issue\n4. **Implementation Order**: Best sequence for solving improvements\n5. **Prevention Recommendations**: How to avoid these issues in the future\n\nFocus on practical, actionable advice suitable for Go projects. Be concise but comprehensive.\nFormat your response using clear markdown headings and bullet points."

/-- The `priority` variable of the fallback branch: starts at `"medium"` and
is escalated to `"critical"` when `'FAIL' in test_results`. -/
def fallbackPriority (test_results : String) : String :=
  if strContainsSub test_results ("FAIL") then "critical" else "medium"

/-- The `insights` list of the fallback branch (lines 122-139), in append
order. -/
def fallbackInsights (cfg : Config) (test_results : String) : List String :=
  (if strContainsSub test_results ("FAIL") then
    ["🚨 **Critical**: Test failures detected - fix immediately"] else [])
  ++ (if cfg.has_complexity then
    ["🔄 **High**: Complex functions found - consider refactoring"] else [])
  ++ (if cfg.has_const_issues then
    ["📋 **Medium**: Duplicate constants - extract as named constants"] else [])
  ++ (if cfg.has_large_files then
    ["📁 **Medium**: Large files detected - consider splitting"] else [])
  ++ (if cfg.has_static_issues then
    ["🔍 **High**: Static analysis issues - check staticcheck warnings"] else [])

/-- The fallback report f-string (lines 141-155): priority uppercased,
insights joined with `chr(10)`, fixed action list and footer. -/
def fallbackReport (cfg : Config) (test_results : String) : String :=
  "## 🤖 AI Code Review Summary (Fallback Analysis)\n\n**Priority**: "
    ++ strUpper (fallbackPriority test_results)
    ++ "\n\n### Identified Issues:\n"
    ++ String.intercalate ("\n") (fallbackInsights cfg test_results)
    ++ "\n\n### Recommended Actions:\n1. Fix test failures first (highest priority)\n2. Address staticcheck warnings\n3. Refactor complex functions\n4. Extract duplicate constants\n5. Split large files\n\n*Configure GEMINI_API_KEY for detailed AI insights.*"

/-- `CodeReviewBot.generate_ai_analysis`: reads the two report files, builds
the prompt, asks the generative API, and falls back to the synthesized report
when the call yields nothing (`if not ai_report` also treats an empty
candidate text as nothing). -/
def generate_ai_analysis (cfg : Config) (fs : String → FileOutcome)
    (gem : GeminiOutcome) : String :=
  let test_results := read_file (fs ("test_results.txt"))
  let analysis_data := read_file (fs ("analysis_report.md"))
  let prompt := buildPrompt test_results analysis_data
  match call_gemini_api cfg.gemini_api_key gem prompt with
  | none => fallbackReport cfg test_results
  | some t => if t = "" then fallbackReport cfg test_results else t

/-- The fields of a parsed GitHub JSON response body that the script ever
reads (`result['number']`, `pr_result['number']`, `pr_result['html_url']`). -/
structure GHResult where
  number : Nat
  html_url : String

/-- A GitHub HTTP response: `ok` is `response.ok`, `jsonBody` is what
`response.json()` would parse to when the status is a success. -/
structure HttpResponse where
  ok : Bool
  status : Nat
  text : String
  jsonBody : GHResult

/-- The JSON body of one outgoing GitHub request, one constructor per dict
literal built by the script. -/
inductive Payload where
  | issue (title body : String) (labels : List String)
  | gitRef (ref sha : String)
  | fileContents (message content branch : String)
  | pullRequest (title head base body : String) (draft : Bool)
  | labels (labels : List String)
  | comment (body : String)

/-- Does the payload come from the label-add dict of branch B? -/
def Payload.isLabelAdd : Payload → Bool
  | .labels _ => true
  | _ => false

/-- Does the payload come from the comment-add dict of branch B? -/
def Payload.isCommentAdd : Payload → Bool
  | .comment _ => true
  | _ => false

/-- One recorded outgoing GitHub API request. -/
structure ApiCall where
  method : String
  endpoint : String
  data : Payload

/-- The observable effect of a run on the GitHub API: the ordered trace of
requests issued so far. -/
structure GHState where
  calls : List ApiCall

/-- `GitHubAPI.request`: issues one request (recorded in the trace) and
returns the parsed JSON body if `response.ok`, else `None` (after printing a
diagnostic, which is not modelled).  The server's behaviour is the oracle,
indexed by how many requests were made before this one. -/
def GitHubAPI.request (oracle : Nat → HttpResponse) (st : GHState)
    (method endpoint : String) (data : Payload) : Option GHResult × GHState :=
  let resp := oracle st.calls.length
  let st' : GHState := ⟨st.calls ++ [⟨method, endpoint, data⟩]⟩
  (if resp.ok then some resp.jsonBody else none, st')

/-- The standard base64 alphabet. -/
def b64Chars : List Char :=
  ("ABCDEFGHIJKLMNOPQRSTUVWXYZabcdefghijklmnopqrstuvwxyz0123456789+/").data

/-- The base64 digit for a 6-bit value. -/
def encChar (n : Nat) : Char := b64Chars.getD n 'A'

/-- Position of a character in a character list, if present. -/
def decCharAux : List Char → Char → Option Nat
  | [], _ => none
  | a :: rest, c => if a = c then some 0 else (decCharAux rest c).map (fun k => k + 1)

/-- The 6-bit value of a base64 digit, if it is one. -/
def decChar (c : Char) : Option Nat := decCharAux b64Chars c

/-- Base64 encoding of a byte sequence (bytes as `Nat` below 256), as
performed by `base64.b64encode`: groups of three bytes become four digits,
with `=` padding for a short final group. -/
def b64encode : List Nat → List Char
  | [] => []
  | [a] => [encChar (a / 4), encChar (a % 4 * 16), '=', '=']
  | [a, b] => [encChar (a / 4), encChar (a % 4 * 16 + b / 16), encChar (b % 16 * 4), '=']
  | a :: b :: c :: rest =>
    encChar (a / 4) :: encChar (a % 4 * 16 + b / 16) :: encChar (b % 16 * 4 + c / 64)
      :: encChar (c % 64) :: b64encode rest

/-- Base64 decoding: the inverse reading of four-digit groups, honouring `=`
padding only at the end of the input. -/
def b64decode : List Char → Option (List Nat)
  | [] => some []
  | c1 :: c2 :: c3 :: c4 :: rest =>
    match decChar c1, decChar c2 with
    | some x, some y =>
      if c3 = '=' then
        if c4 = '=' ∧ rest = [] then some [x * 4 + y / 16] else none
      else
        match decChar c3 with
        | none => none
        | some z =>
          if c4 = '=' then
            if rest = [] then some [x * 4 + y / 16, y % 16 * 16 + z / 4] else none
          else
            match decChar c4, b64decode rest with
            | some w, some tail =>
              some ((x * 4 + y / 16) :: (y % 16 * 16 + z / 4) :: (z % 4 * 64 + w) :: tail)
            | _, _ => none
    | _, _ => none
  | _ => none

/-- UTF-8 bytes of a string (`str.encode()`), as `Nat` values. -/
def strBytes (s : String) : List Nat :=
  s.toUTF8.data.toList.map (fun b => b.toNat)

/-- `base64.b64encode(s.encode()).decode()`: the base64 text of a string's
UTF-8 bytes. -/
def b64encodeStr (s : String) : String :=
  String.mk (b64encode (strBytes s))

/-- The issue title f-string of `create_test_failure_issue` (line 165). -/
def issueTitle (sha : String) : String :=
  "🚨 Test Failure (" ++ sha.take 7 ++ ")"

/-- The issue body f-string of `create_test_failure_issue` (lines 166-182). -/
def issueBody (sha ai_report test_results : String) : String :=
  "## Test Failure Detected\n\nCommit: " ++ sha ++ "\n\n" ++ ai_report
    ++ "\n\n### Test Results:\n<details>\n<summary>Click to view detailed test output</summary>\n\n```\n"
    ++ test_results
    ++ "\n```\n</details>\n\n---\n*This issue was automatically created by AI-powered code analysis.*"

/-- `CodeReviewBot.create_test_failure_issue` (branch A): reads the test
output, obtains the analysis, issues one `POST /issues` request, and returns
the created issue number (or none on a failed request). -/
def create_test_failure_issue (cfg : Config) (fs : String → FileOutcome)
    (gem : GeminiOutcome) (oracle : Nat → HttpResponse) (st : GHState) :
    Option Nat × GHState :=
  let test_results := read_file (fs ("test_results.txt"))
  let ai_report := generate_ai_analysis cfg fs gem
  let issue_data : Payload :=
    .issue (issueTitle cfg.sha) (issueBody cfg.sha ai_report test_results)
      ["bug", "tests", "automated", "ai-reviewed"]
  let r := GitHubAPI.request oracle st "POST" "/issues" issue_data
  (r.1.map (fun result => result.number), r.2)

/-- The markdown analysis document f-string of `create_code_quality_pr`
(lines 207-228); `now` stands for `datetime.now().isoformat()`. -/
def analysisContent (now sha analysis_report ai_report : String) : String :=
  "# Code Quality Analysis Report\n\nGenerated: " ++ now ++ "\nCommit: " ++ sha
    ++ "\n\n" ++ analysis_report ++ "\n\n## AI Analysis:\n" ++ ai_report
    ++ "\n\n## Recommended Actions:\n1. **Reduce Complexity**: Break down complex functions into smaller ones\n2. **Extract Constants**: Define constants for repeated literal values\n3. **Split Large Files**: Consider splitting large files into smaller modules\n4. **Fix Static Issues**: Address issues found by staticcheck\n\n## Next Steps:\n- Review the above findings\n- Apply suggested refactoring\n- Ensure all tests still pass\n- Update this file when complete\n"

/-- The PR body f-string of `create_code_quality_pr` (lines 244-268). -/
def prBody (sha ai_report analysis_report : String) : String :=
  "## Automated Code Quality Review\n\nThis PR was automatically created after detecting code quality issues in commit "
    ++ sha ++ ".\n\n" ++ ai_report
    ++ "\n\n### Detailed Analysis:\n<details>\n<summary>Click to view technical details</summary>\n\n"
    ++ analysis_report
    ++ "\n</details>\n\n### This PR contains:\n- Added `CODE_QUALITY_ANALYSIS.md` with detailed findings\n- AI-generated recommendations and action plan\n\n### Required Actions:\n- [ ] Review the AI analysis above\n- [ ] Follow the recommended implementation order\n- [ ] Apply suggested refactoring\n- [ ] Run tests to ensure changes don't break functionality\n- [ ] Update or remove analysis file after addressing issues\n\n**Note**: This is an automated PR with AI-assisted analysis. Please review carefully before merging."

/-- The fixed comment body of `create_code_quality_pr` (lines 284-288). -/
def commentBody : String :=
  "## 🤖 Code Quality Analysis\n\nI've analyzed the code and found some areas for improvement. Please review the `CODE_QUALITY_ANALYSIS.md` file added in this PR for detailed findings.\n\nIf you have any questions about the recommendations, feel free to ask! You can also push new commits to this branch to run additional analysis."

/-- `CodeReviewBot.create_code_quality_pr` (branch B): creates a branch ref,
commits the analysis document (base64-encoded), opens a draft PR, and — only
if the PR request returned a result — adds labels and a comment.  The results
of the first two requests are never inspected. -/
def create_code_quality_pr (cfg : Config) (fs : String → FileOutcome)
    (gem : GeminiOutcome) (now : String) (oracle : Nat → HttpResponse)
    (st : GHState) : Option Nat × GHState :=
  let analysis_report := read_file (fs ("analysis_report.md"))
  let ai_report := generate_ai_analysis cfg fs gem
  let branch_name := "code-quality-fixes-" ++ cfg.sha.take 7
  let r1 := GitHubAPI.request oracle st "POST" "/git/refs"
    (.gitRef ("refs/heads/" ++ branch_name) cfg.sha)
  let analysis_content := analysisContent now cfg.sha analysis_report ai_report
  let r2 := GitHubAPI.request oracle r1.2 "PUT" "/contents/CODE_QUALITY_ANALYSIS.md"
    (.fileContents "Add code quality analysis report" (b64encodeStr analysis_content) branch_name)
  let r3 := GitHubAPI.request oracle r2.2 "POST" "/pulls"
    (.pullRequest ("🔧 Code Quality Improvements (" ++ cfg.sha.take 7 ++ ")")
      branch_name "main" (prBody cfg.sha ai_report analysis_report) true)
  match r3.1 with
  | none => (none, r3.2)
  | some pr_result =>
    let r4 := GitHubAPI.request oracle r3.2 "POST"
      ("/issues/" ++ toString pr_result.number ++ "/labels")
      (.labels ["automated", "code-quality", "refactoring", "ai-reviewed"])
    let r5 := GitHubAPI.request oracle r4.2 "POST"
      ("/issues/" ++ toString pr_result.number ++ "/comments")
      (.comment commentBody)
    (some pr_result.number, r5.2)

/-- `CodeReviewBot.run`: branch A when the test exit code differs from the
literal `"0"`; branch B when it equals `"0"` and at least one quality flag is
set.  Returns the trace of GitHub requests issued. -/
def run (cfg : Config) (fs : String → FileOutcome) (gem : GeminiOutcome)
    (now : String) (oracle : Nat → HttpResponse) : GHState :=
  let st0 : GHState := ⟨[]⟩
  let st1 :=
    if cfg.test_exit_code ≠ some ("0") then
      (create_test_failure_issue cfg fs gem oracle st0).2
    else st0
  if cfg.test_exit_code = some ("0") ∧
      (cfg.has_complexity = true ∨ cfg.has_const_issues = true ∨
       cfg.has_large_files = true ∨ cfg.has_static_issues = true) then
    (create_code_quality_pr cfg fs gem now oracle st1).2
  else st1

/-- The single request branch A issues (`POST /issues` with the issue dict). -/
def branchACall (cfg : Config) (fs : String → FileOutcome) (gem : GeminiOutcome) : ApiCall :=
  ⟨"POST", "/issues",
    .issue (issueTitle cfg.sha)
      (issueBody cfg.sha (generate_ai_analysis cfg fs gem) (read_file (fs ("test_results.txt"))))
      ["bug", "tests", "automated", "ai-reviewed"]⟩

/-- Branch B, step 1: the branch-ref-create request. -/
def branchBRef (cfg : Config) : ApiCall :=
  ⟨"POST", "/git/refs",
    .gitRef ("refs/heads/" ++ ("code-quality-fixes-" ++ cfg.sha.take 7)) cfg.sha⟩

/-- Branch B, step 2: the content-create request carrying the base64-encoded
analysis document. -/
def branchBFile (cfg : Config) (fs : String → FileOutcome) (gem : GeminiOutcome)
    (now : String) : ApiCall :=
  ⟨"PUT", "/contents/CODE_QUALITY_ANALYSIS.md",
    .fileContents "Add code quality analysis report"
      (b64encodeStr (analysisContent now cfg.sha (read_file (fs ("analysis_report.md")))
        (generate_ai_analysis cfg fs gem)))
      ("code-quality-fixes-" ++ cfg.sha.take 7)⟩

/-- Branch B, step 3: the pull-request-create request. -/
def branchBPR (cfg : Config) (fs : String → FileOutcome) (gem : GeminiOutcome) : ApiCall :=
  ⟨"POST", "/pulls",
    .pullRequest ("🔧 Code Quality Improvements (" ++ cfg.sha.take 7 ++ ")")
      ("code-quality-fixes-" ++ cfg.sha.take 7) "main"
      (prBody cfg.sha (generate_ai_analysis cfg fs gem) (read_file (fs ("analysis_report.md")))) true⟩

/-- Branch B, step 4: the label-add request for PR number `n`. -/
def branchBLabels (n : Nat) : ApiCall :=
  ⟨"POST", "/issues/" ++ toString n ++ "/labels",
    .labels ["automated", "code-quality", "refactoring", "ai-reviewed"]⟩

/-- Branch B, step 5: the comment-add request for PR number `n`. -/
def branchBComment (n : Nat) : ApiCall :=
  ⟨"POST", "/issues/" ++ toString n ++ "/comments", .comment commentBody⟩

/-- A configuration with a failing test exit status (witness input). -/
def cfgFail : Config :=
  ⟨none, none, none, "0123456789abcdef", some "1", false, false, false, false⟩

/-- A configuration with a passing test exit status and no quality flags
(witness input). -/
def cfgClean : Config :=
  ⟨none, none, none, "0123456789abcdef", some "0", false, false, false, false⟩

/-- A configuration with a passing test exit status and the complexity flag
set (witness input). -/
def cfgQuality : Config :=
  ⟨none, none, none, "0123456789abcdef", some "0", true, false, false, false⟩

/-- A filesystem whose test-output file contains `FAIL` (witness input). -/
def fsFail : String → FileOutcome :=
  fun name => if name = "test_results.txt" then .found "FAIL: TestFoo" else .missing

/-- A filesystem with no files (witness input). -/
def fsEmpty : String → FileOutcome := fun _ => .missing

/-- A filesystem with the same test-output text as `fsFail` but a failing
analysis-report read (witness input). -/
def fsFail2 : String → FileOutcome :=
  fun name => if name = "test_results.txt" then .found "FAIL: TestFoo"
    else .readError "disk error"

/-- A generative-API oracle answering with no usable candidate (witness
input). -/
def gemNone : GeminiOutcome := .response none

/-- A GitHub oracle answering every request with a non-success status
(witness input). -/
def oracleDown : Nat → HttpResponse := fun _ => ⟨false, 500, "Internal Server Error", ⟨0, ""⟩⟩

/-- A GitHub oracle answering every request with a success status (witness
input). -/
def oracleUp : Nat → HttpResponse := fun n => ⟨true, 201, "", ⟨n + 10, "https://example.invalid/pr"⟩⟩

/-- A GitHub oracle refusing the first two requests and answering like
`oracleUp` afterwards (witness input). -/
def oracleMixed : Nat → HttpResponse :=
  fun n => if n < 2 then ⟨false, 500, "Internal Server Error", ⟨0, ""⟩⟩ else oracleUp n

/-- Decoding a base64 digit inverts encoding it, for every 6-bit value. -/
theorem decChar_encChar : ∀ n, n < 64 → decChar (encChar n) = some n := by decide

/-- A base64 digit is never the padding character. -/
theorem encChar_ne_pad : ∀ n, n < 64 → ¬(encChar n = '=') := by decide

/-- Base64 decoding inverts base64 encoding on every byte sequence. -/
theorem b64_roundtrip : ∀ bs : List Nat, (∀ b ∈ bs, b < 256) →
    b64decode (b64encode bs) = some bs
  | [], _ => rfl
  | [a], h => by
    have ha : a < 256 := h a (by simp)
    have e1 := decChar_encChar (a / 4) (by omega)
    have e2 := decChar_encChar (a % 4 * 16) (by omega)
    simp [b64encode, b64decode, e1, e2]
    omega
  | [a, b], h => by
    have ha : a < 256 := h a (by simp)
    have hb : b < 256 := h b (by simp)
    have e1 := decChar_encChar (a / 4) (by omega)
    have e2 := decChar_encChar (a % 4 * 16 + b / 16) (by omega)
    have e3 := decChar_encChar (b % 16 * 4) (by omega)
    have n3 := encChar_ne_pad (b % 16 * 4) (by omega)
    simp [b64encode, b64decode, e1, e2, e3, n3]
    constructor <;> omega
  | a :: b :: c :: rest, h => by
    have ha : a < 256 := h a (by simp)
    have hb : b < 256 := h b (by simp)
    have hc : c < 256 := h c (by simp)
    have ih := b64_roundtrip rest (fun x hx => h x (by simp [hx]))
    have e1 := decChar_encChar (a / 4) (by omega)
    have e2 := decChar_encChar (a % 4 * 16 + b / 16) (by omega)
    have e3 := decChar_encChar (b % 16 * 4 + c / 64) (by omega)
    have e4 := decChar_encChar (c % 64) (by omega)
    have n3 := encChar_ne_pad (b % 16 * 4 + c / 64) (by omega)
    have n4 := encChar_ne_pad (c % 64) (by omega)
    simp [b64encode, b64decode, e1, e2, e3, e4, n3, n4, ih]
    refine ⟨by omega, by omega, by omega⟩

/-- UTF-8 bytes are below 256. -/
theorem strBytes_lt (s : String) : ∀ b ∈ strBytes s, b < 256 := by
  intro b hb
  simp only [strBytes, List.mem_map] at hb
  obtain ⟨u, -, rfl⟩ := hb
  exact u.toNat_lt

/-- Branch A records exactly one request, whatever the server answers. -/
theorem create_test_failure_issue_trace (cfg : Config) (fs : String → FileOutcome)
    (gem : GeminiOutcome) (oracle : Nat → HttpResponse) (st : GHState) :
    (create_test_failure_issue cfg fs gem oracle st).2.calls
      = st.calls ++ [branchACall cfg fs gem] := by
  simp [create_test_failure_issue, GitHubAPI.request, branchACall]

/-- The requests branch B records, by cases on the server's answer to the
pull-request-create request (request index 2 when starting from an empty
trace, as `run` does). -/
theorem create_code_quality_pr_trace (cfg : Config) (fs : String → FileOutcome)
    (gem : GeminiOutcome) (now : String) (oracle : Nat → HttpResponse) :
    (create_code_quality_pr cfg fs gem now oracle ⟨[]⟩).2.calls
        = [branchBRef cfg, branchBFile cfg fs gem now, branchBPR cfg fs gem] ∨
    (create_code_quality_pr cfg fs gem now oracle ⟨[]⟩).2.calls
        = [branchBRef cfg, branchBFile cfg fs gem now, branchBPR cfg fs gem,
           branchBLabels (oracle 2).jsonBody.number,
           branchBComment (oracle 2).jsonBody.number] := by
  simp only [create_code_quality_pr, GitHubAPI.request]
  by_cases h : (oracle 2).ok
  · right
    simp [h, branchBRef, branchBFile, branchBPR, branchBLabels, branchBComment]
  · left
    simp [h, branchBRef, branchBFile, branchBPR]

/-- Closed form of branch B from an empty trace: everything it returns and
records is a function of the server's answer to the pull-request-create
request alone. -/
theorem create_code_quality_pr_closed (cfg : Config) (fs : String → FileOutcome)
    (gem : GeminiOutcome) (now : String) (o : Nat → HttpResponse) :
    create_code_quality_pr cfg fs gem now o ⟨[]⟩ =
      if (o 2).ok then
        (some (o 2).jsonBody.number,
         ⟨[branchBRef cfg, branchBFile cfg fs gem now, branchBPR cfg fs gem,
           branchBLabels (o 2).jsonBody.number, branchBComment (o 2).jsonBody.number]⟩)
      else
        (none, ⟨[branchBRef cfg, branchBFile cfg fs gem now, branchBPR cfg fs gem]⟩) := by
  by_cases ho : (o 2).ok <;>
    simp [create_code_quality_pr, GitHubAPI.request, ho, branchBRef, branchBFile,
      branchBPR, branchBLabels, branchBComment]

/-- The whole run's trace when the test exit status is not `"0"`: just the
branch A request. -/
theorem run_trace_failure (cfg : Config) (fs : String → FileOutcome)
    (gem : GeminiOutcome) (now : String) (oracle : Nat → HttpResponse)
    (h : cfg.test_exit_code ≠ some ("0")) :
    (run cfg fs gem now oracle).calls = [branchACall cfg fs gem] := by
  simp only [run]
  rw [if_neg (fun hc => h hc.1), if_pos h]
  simp [create_test_failure_issue, GitHubAPI.request, branchACall]

/-- The whole run's trace when the test exit status is `"0"`: branch B's
trace, or nothing when all flags are off. -/
theorem run_trace_pass (cfg : Config) (fs : String → FileOutcome)
    (gem : GeminiOutcome) (now : String) (oracle : Nat → HttpResponse)
    (h : cfg.test_exit_code = some ("0")) :
    (run cfg fs gem now oracle).calls
        = (create_code_quality_pr cfg fs gem now oracle ⟨[]⟩).2.calls ∨
    (run cfg fs gem now oracle).calls = [] := by
  by_cases hf : cfg.has_complexity = true ∨ cfg.has_const_issues = true ∨
      cfg.has_large_files = true ∨ cfg.has_static_issues = true
  · left
    simp [run, h, hf]
  · right
    simp [run, h, hf]

/-- The label-add endpoint is never the issue-create endpoint. -/
theorem labels_endpoint_ne (n : Nat) : ("/issues/" ++ toString n ++ "/labels") ≠ "/issues" := by
  intro h
  have hlen := congrArg String.length h
  simp only [String.length_append] at hlen
  have h1 : ("/issues/" : String).length = 8 := rfl
  have h2 : ("/labels" : String).length = 7 := rfl
  have h3 : ("/issues" : String).length = 7 := rfl
  omega

/-- The comment-add endpoint is never the issue-create endpoint. -/
theorem comments_endpoint_ne (n : Nat) : ("/issues/" ++ toString n ++ "/comments") ≠ "/issues" := by
  intro h
  have hlen := congrArg String.length h
  simp only [String.length_append] at hlen
  have h1 : ("/issues/" : String).length = 8 := rfl
  have h2 : ("/comments" : String).length = 9 := rfl
  have h3 : ("/issues" : String).length = 7 := rfl
  omega

/-- In every run, at least one of the two branch-defining requests is absent:
an issue-create call excludes a ref-create call and vice versa. -/
theorem run_not_both (cfg : Config) (fs : String → FileOutcome) (gem : GeminiOutcome)
    (now : String) (oracle : Nat → HttpResponse) :
    ((run cfg fs gem now oracle).calls.countP
      (fun c => c.method == "POST" && c.endpoint == "/issues") = 0) ∨
    ((run cfg fs gem now oracle).calls.countP
      (fun c => c.method == "POST" && c.endpoint == "/git/refs") = 0) := by
  by_cases h : cfg.test_exit_code = some ("0")
  · left
    rcases run_trace_pass cfg fs gem now oracle h with hr | hr
    · rw [hr]
      rcases create_code_quality_pr_trace cfg fs gem now oracle with hb | hb <;> rw [hb] <;>
        simp [List.countP_cons, branchBRef, branchBFile, branchBPR, branchBLabels,
          branchBComment, labels_endpoint_ne, comments_endpoint_ne]
    · rw [hr]
      rfl
  · right
    rw [run_trace_failure cfg fs gem now oracle h]
    simp [List.countP_cons, branchACall]

set_option maxHeartbeats 2000000 in
set_option maxRecDepth 100000 in
/-- The fallback report contains the substring `**Priority**: CRITICAL`
exactly when the test output contains `FAIL`, whatever the four flags are. -/
theorem fallback_contains_critical (cfg : Config) (tr : String) :
    strContainsSub (fallbackReport cfg tr) ("**Priority**: CRITICAL")
      = strContainsSub tr ("FAIL") := by
  obtain ⟨t, k, r, sha, tec, hc, hk, hl, hs⟩ := cfg
  cases hf : strContainsSub tr ("FAIL") <;>
    cases hc <;> cases hk <;> cases hl <;> cases hs <;>
    simp [fallbackReport, fallbackInsights, fallbackPriority, hf] <;>
    decide

/-- C1: in every run where the test-exit-status value differs from the
literal string `"0"` (the commit SHA being a string, as `Config.sha` is),
exactly one issue-create request (`POST /issues`) appears in the trace, its
payload is an issue dict whose title is `issueTitle cfg.sha`, and that title
contains the first 7 characters of the commit SHA as a substring. -/
theorem testFailure_creates_one_issue (cfg : Config) (fs : String → FileOutcome)
    (gem : GeminiOutcome) (now : String) (oracle : Nat → HttpResponse)
    (h : cfg.test_exit_code ≠ some ("0")) :
    (run cfg fs gem now oracle).calls.countP
        (fun c => c.method == "POST" && c.endpoint == "/issues") = 1 ∧
    (∀ c ∈ (run cfg fs gem now oracle).calls,
      c.method = "POST" → c.endpoint = "/issues" →
        ∃ body ls, c.data = Payload.issue (issueTitle cfg.sha) body ls) ∧
    List.IsInfix (cfg.sha.take 7).data (issueTitle cfg.sha).data := by
  rw [run_trace_failure cfg fs gem now oracle h]
  refine ⟨?_, ?_, ?_⟩
  · simp [List.countP_cons, branchACall]
  · intro c hc _ _
    simp only [List.mem_singleton] at hc
    subst hc
    exact ⟨_, _, rfl⟩
  · refine ⟨("🚨 Test Failure (").data, (")").data, ?_⟩
    simp [issueTitle, String.data_append]

/-- C1 witness: a concrete run with test exit status `"1"`. -/
theorem testFailure_creates_one_issue_witness :
    (cfgFail.test_exit_code ≠ some ("0")) ∧
    ((run cfgFail fsEmpty gemNone "2024-01-01T00:00:00" oracleUp).calls.countP
        (fun c => c.method == "POST" && c.endpoint == "/issues") = 1 ∧
     (∀ c ∈ (run cfgFail fsEmpty gemNone "2024-01-01T00:00:00" oracleUp).calls,
        c.method = "POST" → c.endpoint = "/issues" →
          ∃ body ls, c.data = Payload.issue (issueTitle cfgFail.sha) body ls) ∧
     List.IsInfix (cfgFail.sha.take 7).data (issueTitle cfgFail.sha).data) :=
  ⟨by decide,
   testFailure_creates_one_issue cfgFail fsEmpty gemNone "2024-01-01T00:00:00" oracleUp
     (by decide)⟩

/-- C2 (amended): branch A and branch B are mutually exclusive — in every
run, there are zero issue-create requests or zero branch-ref-create requests,
because branch B's precondition (test-exit-status = "0") contradicts branch
A's trigger (test-exit-status ≠ "0"). -/
theorem branchA_branchB_exclusive (cfg : Config) (fs : String → FileOutcome)
    (gem : GeminiOutcome) (now : String) (oracle : Nat → HttpResponse) :
    ((run cfg fs gem now oracle).calls.countP
      (fun c => c.method == "POST" && c.endpoint == "/issues") = 0) ∨
    ((run cfg fs gem now oracle).calls.countP
      (fun c => c.method == "POST" && c.endpoint == "/git/refs") = 0) :=
  run_not_both cfg fs gem now oracle

/-- C2 counterexample: the claim as stated is false — no assignment of the
test-exit-status and the four quality flags yields a run in which branch A's
issue-create request and a branch-B ref-create request both occur. -/
theorem branchA_branchB_not_exclusive_cex :
    ¬ ∃ (cfg : Config) (fs : String → FileOutcome) (gem : GeminiOutcome)
        (now : String) (oracle : Nat → HttpResponse),
      0 < (run cfg fs gem now oracle).calls.countP
            (fun c => c.method == "POST" && c.endpoint == "/issues") ∧
      0 < (run cfg fs gem now oracle).calls.countP
            (fun c => c.method == "POST" && c.endpoint == "/git/refs") := by
  rintro ⟨cfg, fs, gem, now, oracle, h1, h2⟩
  rcases run_not_both cfg fs gem now oracle with h | h <;> omega

/-- C3: when the test-exit-status equals the literal `"0"` and all four
quality flags are false, the run's request trace is empty — no issue-create,
no pull-request-create, no remote write at all. -/
theorem clean_run_no_calls (cfg : Config) (fs : String → FileOutcome)
    (gem : GeminiOutcome) (now : String) (oracle : Nat → HttpResponse)
    (h0 : cfg.test_exit_code = some ("0"))
    (h1 : cfg.has_complexity = false) (h2 : cfg.has_const_issues = false)
    (h3 : cfg.has_large_files = false) (h4 : cfg.has_static_issues = false) :
    (run cfg fs gem now oracle).calls = [] := by
  simp [run, h0, h1, h2, h3, h4]

/-- C3 witness: a concrete clean run. -/
theorem clean_run_no_calls_witness :
    (cfgClean.test_exit_code = some ("0") ∧ cfgClean.has_complexity = false ∧
     cfgClean.has_const_issues = false ∧ cfgClean.has_large_files = false ∧
     cfgClean.has_static_issues = false) ∧
    (run cfgClean fsEmpty gemNone "2024-01-01T00:00:00" oracleUp).calls = [] :=
  ⟨⟨rfl, rfl, rfl, rfl, rfl⟩,
   clean_run_no_calls cfgClean fsEmpty gemNone "2024-01-01T00:00:00" oracleUp
     rfl rfl rfl rfl rfl⟩

/-- C4: whenever the generative call yields nothing (no key, transport error,
non-success status, or no usable candidate), the report returned by
`generate_ai_analysis` is the fallback report, and it contains the severity
marker `**Priority**: CRITICAL` exactly when the test-output text contains
the literal substring `FAIL`. -/
theorem fallback_critical_iff_FAIL (cfg : Config) (fs : String → FileOutcome)
    (gem : GeminiOutcome)
    (h : call_gemini_api cfg.gemini_api_key gem
      (buildPrompt (read_file (fs ("test_results.txt")))
        (read_file (fs ("analysis_report.md")))) = none) :
    strContainsSub (generate_ai_analysis cfg fs gem) ("**Priority**: CRITICAL")
      = strContainsSub (read_file (fs ("test_results.txt"))) ("FAIL") := by
  simp only [generate_ai_analysis, h]
  exact fallback_contains_critical cfg _

/-- C4 witness: no API key configured and a test-output file containing
`FAIL`. -/
theorem fallback_critical_iff_FAIL_witness :
    (call_gemini_api cfgFail.gemini_api_key gemNone
      (buildPrompt (read_file (fsFail ("test_results.txt")))
        (read_file (fsFail ("analysis_report.md")))) = none) ∧
    strContainsSub (generate_ai_analysis cfgFail fsFail gemNone) ("**Priority**: CRITICAL")
      = strContainsSub (read_file (fsFail ("test_results.txt"))) ("FAIL") :=
  ⟨rfl, fallback_critical_iff_FAIL cfgFail fsFail gemNone rfl⟩

/-- C5: in branch B (as entered by `run`, with an empty trace), when the
server answers the pull-request-create request (request index 2) with a
non-success status, the branch returns no identifier and its trace contains
no label-add and no comment-add request. -/
theorem pr_failure_no_labels_comment (cfg : Config) (fs : String → FileOutcome)
    (gem : GeminiOutcome) (now : String) (oracle : Nat → HttpResponse)
    (h : (oracle 2).ok = false) :
    (create_code_quality_pr cfg fs gem now oracle ⟨[]⟩).1 = none ∧
    ∀ c ∈ (create_code_quality_pr cfg fs gem now oracle ⟨[]⟩).2.calls,
      c.data.isLabelAdd = false ∧ c.data.isCommentAdd = false := by
  have htr : (create_code_quality_pr cfg fs gem now oracle ⟨[]⟩).2.calls
      = [branchBRef cfg, branchBFile cfg fs gem now, branchBPR cfg fs gem] := by
    simp [create_code_quality_pr, GitHubAPI.request, h,
      branchBRef, branchBFile, branchBPR]
  refine ⟨?_, ?_⟩
  · simp [create_code_quality_pr, GitHubAPI.request, h]
  · intro c hc
    rw [htr] at hc
    simp only [List.mem_cons, List.not_mem_nil, or_false] at hc
    rcases hc with rfl | rfl | rfl
    · exact ⟨rfl, rfl⟩
    · exact ⟨rfl, rfl⟩
    · exact ⟨rfl, rfl⟩

/-- C5 witness: a server that refuses every request. -/
theorem pr_failure_no_labels_comment_witness :
    ((oracleDown 2).ok = false) ∧
    ((create_code_quality_pr cfgQuality fsEmpty gemNone "2024-01-01T00:00:00"
        oracleDown ⟨[]⟩).1 = none ∧
     ∀ c ∈ (create_code_quality_pr cfgQuality fsEmpty gemNone "2024-01-01T00:00:00"
        oracleDown ⟨[]⟩).2.calls,
       c.data.isLabelAdd = false ∧ c.data.isCommentAdd = false) :=
  ⟨rfl, pr_failure_no_labels_comment cfgQuality fsEmpty gemNone "2024-01-01T00:00:00"
    oracleDown rfl⟩

/-- C6: branch B's trace always contains the content-create request, its
payload is the file dict whose content field is the base64 encoding of the
markdown analysis document assembled from the commit id and analysis text,
and base64-decoding that content field yields exactly the document's bytes
(encode-then-decode round trip). -/
theorem content_base64_roundtrip (cfg : Config) (fs : String → FileOutcome)
    (gem : GeminiOutcome) (now : String) (oracle : Nat → HttpResponse) :
    ∃ c, c ∈ (create_code_quality_pr cfg fs gem now oracle ⟨[]⟩).2.calls ∧
      c = branchBFile cfg fs gem now ∧
      b64decode (b64encodeStr (analysisContent now cfg.sha
          (read_file (fs ("analysis_report.md")))
          (generate_ai_analysis cfg fs gem))).data
        = some (strBytes (analysisContent now cfg.sha
          (read_file (fs ("analysis_report.md")))
          (generate_ai_analysis cfg fs gem))) := by
  refine ⟨branchBFile cfg fs gem now, ?_, rfl, ?_⟩
  · rcases create_code_quality_pr_trace cfg fs gem now oracle with htr | htr <;>
      rw [htr] <;> simp
  · exact b64_roundtrip _ (strBytes_lt _)

/-- C7: reading a missing file, or a file whose read fails for any reason,
returns the empty string; `read_file` is a total function, so it never
propagates an exception to its caller. -/
theorem read_file_missing_empty (o : FileOutcome)
    (h : o = FileOutcome.missing ∨ ∃ m, o = FileOutcome.readError m) :
    read_file o = "" := by
  rcases h with rfl | ⟨m, rfl⟩ <;> rfl

/-- C7 witness: a missing file. -/
theorem read_file_missing_empty_witness :
    (FileOutcome.missing = FileOutcome.missing ∨
      ∃ m, FileOutcome.missing = FileOutcome.readError m) ∧
    read_file FileOutcome.missing = "" :=
  ⟨Or.inl rfl, read_file_missing_empty FileOutcome.missing (Or.inl rfl)⟩

/-- C8: the client returns the parsed JSON body exactly when the server
answers with a success status, returns a null result on a non-success status
(the printed diagnostic is not modelled), and a caller — branch A — treats
the null result as a no-op, returning no identifier. -/
theorem request_contract (oracle : Nat → HttpResponse) (st : GHState)
    (method endpoint : String) (data : Payload) (cfg : Config)
    (fs : String → FileOutcome) (gem : GeminiOutcome) :
    ((oracle st.calls.length).ok = true →
      (GitHubAPI.request oracle st method endpoint data).1
        = some (oracle st.calls.length).jsonBody) ∧
    ((oracle st.calls.length).ok = false →
      (GitHubAPI.request oracle st method endpoint data).1 = none) ∧
    ((oracle st.calls.length).ok = false →
      (create_test_failure_issue cfg fs gem oracle st).1 = none) := by
  refine ⟨fun h => ?_, fun h => ?_, fun h => ?_⟩ <;>
    simp [GitHubAPI.request, create_test_failure_issue, h]

/-- C8 witness: a refused request yields a null result and branch A returns
no identifier. -/
theorem request_contract_witness :
    ((oracleDown (GHState.mk []).calls.length).ok = false) ∧
    (GitHubAPI.request oracleDown ⟨[]⟩ "POST" "/issues" (Payload.comment commentBody)).1
      = none ∧
    (create_test_failure_issue cfgFail fsEmpty gemNone oracleDown ⟨[]⟩).1 = none :=
  ⟨rfl,
   (request_contract oracleDown ⟨[]⟩ "POST" "/issues" (Payload.comment commentBody)
     cfgFail fsEmpty gemNone).2.1 rfl,
   (request_contract oracleDown ⟨[]⟩ "POST" "/issues" (Payload.comment commentBody)
     cfgFail fsEmpty gemNone).2.2 rfl⟩

/-- C9: the fallback report is deterministic — two runs that reach the
fallback path with the same test-output text and the same four quality flags
produce identical report text, whatever else (tokens, SHA, exit status,
analysis-report file, generative oracle) differs. -/
theorem fallback_deterministic (cfg cfg' : Config) (fs fs' : String → FileOutcome)
    (gem gem' : GeminiOutcome)
    (hc : cfg.has_complexity = cfg'.has_complexity)
    (hk : cfg.has_const_issues = cfg'.has_const_issues)
    (hl : cfg.has_large_files = cfg'.has_large_files)
    (hs : cfg.has_static_issues = cfg'.has_static_issues)
    (htr : read_file (fs ("test_results.txt")) = read_file (fs' ("test_results.txt")))
    (h1 : call_gemini_api cfg.gemini_api_key gem
      (buildPrompt (read_file (fs ("test_results.txt")))
        (read_file (fs ("analysis_report.md")))) = none)
    (h2 : call_gemini_api cfg'.gemini_api_key gem'
      (buildPrompt (read_file (fs' ("test_results.txt")))
        (read_file (fs' ("analysis_report.md")))) = none) :
    generate_ai_analysis cfg fs gem = generate_ai_analysis cfg' fs' gem' := by
  simp only [generate_ai_analysis, h1, h2]
  simp only [fallbackReport, fallbackInsights, fallbackPriority, htr, hc, hk, hl, hs]

/-- C9 witness: two runs differing in exit status, analysis-report file and
nothing that the fallback reads. -/
theorem fallback_deterministic_witness :
    (cfgFail.has_complexity = cfgClean.has_complexity ∧
     cfgFail.has_const_issues = cfgClean.has_const_issues ∧
     cfgFail.has_large_files = cfgClean.has_large_files ∧
     cfgFail.has_static_issues = cfgClean.has_static_issues ∧
     read_file (fsFail ("test_results.txt")) = read_file (fsFail2 ("test_results.txt"))) ∧
    generate_ai_analysis cfgFail fsFail gemNone
      = generate_ai_analysis cfgClean fsFail2 gemNone :=
  ⟨⟨rfl, rfl, rfl, rfl, by decide⟩,
   fallback_deterministic cfgFail cfgClean fsFail fsFail2 gemNone gemNone
     rfl rfl rfl rfl (by decide) rfl rfl⟩

/-- C10: branch B never inspects the results of the branch-ref-create and
content-create requests — two servers that agree on the answer to the
pull-request-create request (index 2) give identical branch-B outcomes, and
the pull-request-create request is attempted in every branch-B run. -/
theorem steps12_not_inspected (cfg : Config) (fs : String → FileOutcome)
    (gem : GeminiOutcome) (now : String) (o o' : Nat → HttpResponse)
    (h : o 2 = o' 2) :
    create_code_quality_pr cfg fs gem now o ⟨[]⟩
      = create_code_quality_pr cfg fs gem now o' ⟨[]⟩ ∧
    ∃ c, c ∈ (create_code_quality_pr cfg fs gem now o ⟨[]⟩).2.calls ∧
      c.method = "POST" ∧ c.endpoint = "/pulls" := by
  constructor
  · rw [create_code_quality_pr_closed cfg fs gem now o,
      create_code_quality_pr_closed cfg fs gem now o', h]
  · refine ⟨branchBPR cfg fs gem, ?_, rfl, rfl⟩
    rcases create_code_quality_pr_trace cfg fs gem now o with htr | htr <;>
      rw [htr] <;> simp

/-- C10 witness: two servers that differ on the first two answers but agree
from the pull-request-create request on. -/
theorem steps12_not_inspected_witness :
    (oracleMixed 2 = oracleUp 2) ∧
    (create_code_quality_pr cfgQuality fsEmpty gemNone "2024-01-01T00:00:00"
        oracleMixed ⟨[]⟩
      = create_code_quality_pr cfgQuality fsEmpty gemNone "2024-01-01T00:00:00"
        oracleUp ⟨[]⟩ ∧
     ∃ c, c ∈ (create_code_quality_pr cfgQuality fsEmpty gemNone "2024-01-01T00:00:00"
        oracleMixed ⟨[]⟩).2.calls ∧
       c.method = "POST" ∧ c.endpoint = "/pulls") :=
  ⟨rfl,
   steps12_not_inspected cfgQuality fsEmpty gemNone "2024-01-01T00:00:00"
     oracleMixed oracleUp rfl⟩

end CodeReview
